import Mathlib

/-!
Verification of the nfc-server repository's session pairing, APDU endpoint,
authentication and binary-endpoint logic, as a shallow embedding of
`src/server.py` (the richest server variant) and `src/main.py` into Lean.

Python dictionaries are embedded as association lists, Python sets of client
identities as duplicate-free lists (insertion adds only unseen elements),
strings as Lean `String` with character-list based helpers mirroring
`str.strip()`, `str.upper()` and `str.replace(" ", "")` for ASCII input, and
`bytes` as `List Nat`.  HTTP exceptions are embedded as `Except Nat`, the
`Nat` being the HTTP status code.

The repository's duplex-channel bridge server — the websocket endpoint that
`src/tag_simulator.py` connects to with `role=tag` and that exchanges
`apdu_request`/`apdu_response` messages — is not among the source files, so
the Command Bridge, Outbox Multiplexer and Correlation Table are modelled
from the spec (definitions marked `Modelled from the spec`).
-/

namespace NfcServer

/-- Association-list lookup: first binding of the key, mirroring a Python
dict read. -/
def lookupA {κ α : Type} [DecidableEq κ] : List (κ × α) → κ → Option α
  | [], _ => none
  | (k', v) :: m, k => if k' = k then some v else lookupA m k

/-- Association-list update: overwrite the binding of the key, appending a
fresh binding if absent, mirroring a Python dict assignment. -/
def setA {κ α : Type} [DecidableEq κ] : List (κ × α) → κ → α → List (κ × α)
  | [], k, v => [(k, v)]
  | (k', v') :: m, k, v => if k' = k then (k, v) :: m else (k', v') :: setA m k v

/-- Characters stripped by `str.strip()` (ASCII whitespace subset relevant to
the HTTP headers and session ids handled by the server). -/
def isSpaceChar (c : Char) : Bool := c = ' ' || c = '\t' || c = '\n' || c = '\r'

/-- Embedding of Python `s.strip()` on ASCII strings. -/
def trimChars (s : String) : String :=
  String.mk (((s.data.dropWhile isSpaceChar).reverse.dropWhile isSpaceChar).reverse)

/-- Embedding of Python `s.upper().replace(" ", "")` on ASCII strings:
uppercase every character, then remove the spaces (the two steps commute
with each other character-wise). -/
def stripSpacesUpper (s : String) : String :=
  String.mk ((s.data.map Char.toUpper).filter (fun c => c ≠ ' '))

/-- Embedding of `check_auth` from `src/server.py` (lines 140-149; the copy
in `src/main.py` lines 120-135 is identical in behaviour): returns `none`
when the request passes, `some code` for the HTTP error raised.  An empty
configured API key disables authentication; a header that is absent or does
not start with `"Bearer "` yields 401; a wrong token yields 403.  The token
is the part of the header after the first space, stripped. -/
def check_auth (apiKey : String) (authorization : Option String) : Option Nat :=
  if apiKey = "" then none
  else
    match authorization with
    | none => some 401
    | some a =>
      if a.data.take 7 ≠ "Bearer ".data then some 401
      else if trimChars (String.mk (a.data.drop 7)) ≠ apiKey then some 403
      else none

/-- In-memory state of `src/server.py`: `session_clients` (dict of sets),
`session_status` (dict), `last_apdu_per_session` (dict). -/
structure ServerState where
  sessionClients : List (String × List String)
  sessionStatus : List (String × String)
  lastApdu : List (String × String)
  deriving DecidableEq, Repr

/-- The state at process start: all three dictionaries empty. -/
def initState : ServerState := ⟨[], [], []⟩

/-- Python `set.add`: append the client only if not already present. -/
def addClient (cs : List String) (c : String) : List String :=
  if c ∈ cs then cs else cs ++ [c]

/-- Embedding of `update_pairing` from `src/server.py` lines 156-165: ensure
the session has a client set, add the client identity, then set the status
to `"paired"` when at least two identities are registered and `"waiting"`
otherwise. -/
def update_pairing (sid cid : String) (st : ServerState) : ServerState :=
  let cs := (lookupA st.sessionClients sid).getD []
  let cs' := addClient cs cid
  let status := if 2 ≤ cs'.length then "paired" else "waiting"
  { st with sessionClients := setA st.sessionClients sid cs',
            sessionStatus := setA st.sessionStatus sid status }

/-- The client set the code associates with a session (empty if unknown). -/
def clientsOf (st : ServerState) (sid : String) : List String :=
  (lookupA st.sessionClients sid).getD []

/-- The status string `/session/status` reports for a session
(`"waiting"` if unknown, per `session_status.get(session_id, "waiting")`). -/
def statusOf (st : ServerState) (sid : String) : String :=
  (lookupA st.sessionStatus sid).getD "waiting"

/-- Body of the `ApduResponse` model of `src/server.py` lines 77-80. -/
structure ApduResponse where
  response_apdu : String
  status : String
  paired : Bool
  deriving DecidableEq, Repr

/-- Embedding of the `/apdu` endpoint of `src/server.py` lines 207-231:
check auth, strip the session id and reject an empty one with 400, register
the caller via `update_pairing`, normalise and record the command, then
answer `"9000"` with the current pairing flag. -/
def handle_apdu (apiKey : String) (authorization : Option String)
    (session_id command_apdu client_id : String) (st : ServerState) :
    Except Nat (ApduResponse × ServerState) :=
  match check_auth apiKey authorization with
  | some code => .error code
  | none =>
    let sid := trimChars session_id
    if sid = "" then .error 400
    else
      let st1 := update_pairing sid client_id st
      let cmd := stripSpacesUpper command_apdu
      let st2 := { st1 with lastApdu := setA st1.lastApdu sid cmd }
      let paired := match lookupA st2.sessionStatus sid with
        | some s => s = "paired"
        | none => false
      .ok (⟨"9000", "ok", paired⟩, st2)

/-- Embedding of the `/tag/event` endpoint of `src/server.py` lines 234-251:
check auth, register the caller for the event's session (no trimming, no
emptiness check), answer `"ok"` with the current pairing flag. -/
def tag_event (apiKey : String) (authorization : Option String)
    (session_id client_id : String) (st : ServerState) :
    Except Nat ((String × Bool) × ServerState) :=
  match check_auth apiKey authorization with
  | some code => .error code
  | none =>
    let st1 := update_pairing session_id client_id st
    let paired := match lookupA st1.sessionStatus session_id with
      | some s => s = "paired"
      | none => false
    .ok (("ok", paired), st1)

/-- Embedding of the `/session/status` endpoint of `src/server.py` lines
254-268: a pure read returning the session id, the status (default
`"waiting"`) and the number of registered clients (default 0). -/
def get_session_status (apiKey : String) (authorization : Option String)
    (session_id : String) (st : ServerState) :
    Except Nat (String × String × Nat) :=
  match check_auth apiKey authorization with
  | some code => .error code
  | none =>
    .ok (session_id, statusOf st session_id, (clientsOf st session_id).length)

/-- Embedding of the `/apdu` endpoint of `src/main.py` lines 195-221: here
`session_id` is optional and `(req.session_id or "default").strip() or
"default"` substitutes `"default"` for a missing or empty id instead of
rejecting; the command is normalised and recorded, and the answer is always
`("9000", "ok")`.  The state is the `last_apdu_per_session` dict. -/
def main_handle_apdu (apiKey : String) (authorization : Option String)
    (session_id : Option String) (command_apdu : String)
    (st : List (String × String)) :
    Except Nat ((String × String) × List (String × String)) :=
  match check_auth apiKey authorization with
  | some code => .error code
  | none =>
    let s1 := match session_id with
      | none => "default"
      | some s => if s = "" then "default" else s
    let s2 := trimChars s1
    let sid := if s2 = "" then "default" else s2
    let cmd := stripSpacesUpper command_apdu
    .ok (("9000", "ok"), setA st sid cmd)

/-- Byte sequence of an ASCII string literal, for the fixed reply bodies of
the binary endpoint. -/
def strBytes (s : String) : List Nat := s.data.map Char.toNat

/-- Embedding of `process_nfc_bin` from `src/server.py` lines 285-293:
`data[0:1]` is the one-byte (or empty) slice `data.take 1`; a first byte
`0x01` or `0x02` selects a fixed ACK string, anything else the fixed error
string. -/
def process_nfc_bin (data : List Nat) : List Nat :=
  if data.take 1 = [1] then strBytes "ACK: Comanda 1 procesata"
  else if data.take 1 = [2] then strBytes "ACK: Comanda 2 procesata"
  else strBytes "Error: Comanda necunoscuta"

/-- Embedding of the `/nfc-bin` endpoint of `src/server.py` lines 271-278:
an empty body is rejected with HTTP 400, otherwise the body is handed to
`process_nfc_bin` and its result is returned to the same caller as the
response body. -/
def handle_nfc_bin (data : List Nat) : Except Nat (List Nat) :=
  if data = [] then .error 400 else .ok (process_nfc_bin data)

/-- One incoming request to a state-touching endpoint of `src/server.py`,
with the authorization header, the request fields, and the client identity
(`host:port`) the server derives from the connection. -/
inductive ServerOp where
  | apdu (authorization : Option String) (sid cmd cid : String)
  | tagEvent (authorization : Option String) (sid cid : String)
  | statusQ (authorization : Option String) (sid : String)
  deriving DecidableEq, Repr

/-- The authorization header an operation carries. -/
def ServerOp.authOf : ServerOp → Option String
  | .apdu a _ _ _ => a
  | .tagEvent a _ _ => a
  | .statusQ a _ => a

/-- State transition of one request: a rejected request (auth failure or,
for `/apdu`, empty stripped session id) leaves the state unchanged, a
successful one installs the state its handler built; `/session/status`
performs no assignment at all. -/
def stepOp (apiKey : String) (op : ServerOp) (st : ServerState) : ServerState :=
  match op with
  | .apdu a sid cmd cid =>
    match handle_apdu apiKey a sid cmd cid st with
    | .ok (_, st') => st'
    | .error _ => st
  | .tagEvent a sid cid =>
    match tag_event apiKey a sid cid st with
    | .ok (_, st') => st'
    | .error _ => st
  | .statusQ _ _ => st

/-- State after serving a list of requests from process start. -/
def run (apiKey : String) (ops : List ServerOp) : ServerState :=
  ops.foldl (fun st op => stepOp apiKey op st) initState

/-- A state the server can actually be in: reached from `initState` by some
request sequence under some configured API key. -/
def Reachable (st : ServerState) : Prop :=
  ∃ apiKey ops, st = run apiKey ops

/-- The state a successful `/apdu` request leaves behind: the pairing update
followed by the `last_apdu_per_session` assignment. -/
def apduState (sid cmd cid : String) (st : ServerState) : ServerState :=
  let st1 := update_pairing sid cid st
  ⟨st1.sessionClients, st1.sessionStatus, setA st1.lastApdu sid cmd⟩

/-- The invariant the auto-pairing logic maintains: a session reads as
`"paired"` exactly when it has at least two registered client identities. -/
def PairedInv (st : ServerState) : Prop :=
  ∀ sid, statusOf st sid = "paired" ↔ 2 ≤ (clientsOf st sid).length

/-- Modelled from the spec: role of a session participant (§3, Glossary) of
the missing duplex bridge server. -/
inductive BRole where
  | reader
  | tag
  deriving DecidableEq, Repr

/-- Modelled from the spec: the shared state of the missing bridge server —
the Session Registry's role map (§4.1), the per-(session, role) Outboxes
(§4.2) and the sessions with an outstanding correlation slot (§4.3). -/
structure BridgeState where
  roles : List (String × List (BRole × String))
  outboxes : List ((String × BRole) × List String)
  slots : List String
  deriving DecidableEq, Repr

/-- Modelled from the spec: whether a tag-role Outbox is currently attached
for the session, i.e. whether a tag peer is connected (§4.2, §4.4). -/
def hasTagOutbox (st : BridgeState) (sid : String) : Bool :=
  (lookupA st.outboxes (sid, BRole.tag)).isSome

/-- Modelled from the spec: derived pairing status of the registry — the
session's role map contains both a `reader` and a `tag` entry (§3). -/
def pairedB (st : BridgeState) (sid : String) : Bool :=
  let rs := (lookupA st.roles sid).getD []
  (lookupA rs BRole.reader).isSome && (lookupA rs BRole.tag).isSome

/-- Modelled from the spec: non-blocking Outbox enqueue; a push with no
attached Outbox is dropped (§4.2). -/
def pushOutbox (st : BridgeState) (sid : String) (r : BRole) (m : String) :
    BridgeState :=
  match lookupA st.outboxes (sid, r) with
  | none => st
  | some q => { st with outboxes := setA st.outboxes (sid, r) (q ++ [m]) }

/-- Result of one synchronous bridge call: the answer payload, the pairing
flag reported with it, the time at which the call resolved (time 0 being
submission), and the state left behind. -/
structure CommandResult where
  response_payload : String
  paired : Bool
  resolveTime : Nat
  finalState : BridgeState
  deriving DecidableEq, Repr

/-- First response event arriving no later than the timeout, scanning the
tag peer's response events in arrival order (each event is a pair of its
arrival time and its payload). -/
def firstResponseWithin (timeout : Nat) : List (Nat × String) → Option (Nat × String)
  | [] => none
  | (t, p) :: rest =>
    if t ≤ timeout then some (t, p) else firstResponseWithin timeout rest

/-- Modelled from the spec: one Command Bridge invocation (§4.4), the
`submit_command` operation of §6.  `arrivals` is the trace of matching
response events the tag peer produces for this call.  With no tag Outbox
the call answers `"6A82"` with `paired = false` at once and creates no
correlation slot; otherwise the command is pushed onto the tag Outbox, a
slot is created, and the call resolves either with the first response
arriving within the timeout — delivered unmodified — or, when none
arrives, with `"6F00"` exactly when the timeout elapses.  Both outcomes are
ordinary results of the call, never transport-level errors, and the slot is
removed on resolution. -/
def submit_command (st : BridgeState) (sid cmd : String) (timeout : Nat)
    (arrivals : List (Nat × String)) : CommandResult :=
  if hasTagOutbox st sid then
    let st1 := pushOutbox st sid BRole.tag cmd
    let st2 := { st1 with slots := st1.slots ++ [sid] }
    match firstResponseWithin timeout arrivals with
    | some (t, p) =>
      ⟨p, pairedB st2 sid, t, { st2 with slots := st2.slots.erase sid }⟩
    | none =>
      ⟨"6F00", pairedB st2 sid, timeout, { st2 with slots := st2.slots.erase sid }⟩
  else
    ⟨"6A82", false, 0, st⟩

theorem lookupA_setA_self {κ α : Type} [DecidableEq κ] (m : List (κ × α)) (k : κ) (v : α) :
    lookupA (setA m k v) k = some v := by
  induction m with
  | nil => simp [setA, lookupA]
  | cons p m ih =>
    obtain ⟨k', v'⟩ := p
    by_cases h : k' = k
    · simp [setA, h, lookupA]
    · simp [setA, h, lookupA, ih]

theorem lookupA_setA_ne {κ α : Type} [DecidableEq κ] (m : List (κ × α)) (k k' : κ) (v : α)
    (h : k' ≠ k) : lookupA (setA m k v) k' = lookupA m k' := by
  have hk : ¬(k = k') := fun he => h he.symm
  induction m with
  | nil => simp [setA, lookupA, hk]
  | cons p m ih =>
    obtain ⟨k₀, v₀⟩ := p
    by_cases h0 : k₀ = k
    · subst h0
      simp [setA, lookupA, hk]
    · simp [setA, h0, lookupA, ih]

theorem setA_setA {κ α : Type} [DecidableEq κ] (m : List (κ × α)) (k : κ) (v w : α) :
    setA (setA m k v) k w = setA m k w := by
  induction m with
  | nil => simp [setA]
  | cons p m ih =>
    obtain ⟨k', v'⟩ := p
    by_cases h : k' = k
    · simp [setA, h]
    · simp [setA, h, ih]

theorem addClient_sub (cs : List String) (c a : String) (h : a ∈ cs) :
    a ∈ addClient cs c := by
  unfold addClient
  by_cases hc : c ∈ cs
  · simpa [hc]
  · simp [hc, List.mem_append, h]

theorem addClient_len (cs : List String) (c : String) :
    cs.length ≤ (addClient cs c).length := by
  unfold addClient
  by_cases hc : c ∈ cs <;> simp [hc]

theorem addClient_mem_self (cs : List String) (c : String) :
    c ∈ addClient cs c := by
  unfold addClient
  by_cases hc : c ∈ cs <;> simp [hc]

theorem addClient_of_mem (cs : List String) (c : String) (h : c ∈ cs) :
    addClient cs c = cs := by
  simp [addClient, h]

theorem clientsOf_update_self (sid cid : String) (st : ServerState) :
    clientsOf (update_pairing sid cid st) sid = addClient (clientsOf st sid) cid := by
  simp [clientsOf, update_pairing, lookupA_setA_self]

theorem clientsOf_update_ne (sid sid' cid : String) (st : ServerState)
    (h : sid' ≠ sid) :
    clientsOf (update_pairing sid cid st) sid' = clientsOf st sid' := by
  simp [clientsOf, update_pairing, lookupA_setA_ne _ _ _ _ h]

theorem statusOf_update_self (sid cid : String) (st : ServerState) :
    statusOf (update_pairing sid cid st) sid =
      (if 2 ≤ (addClient (clientsOf st sid) cid).length then "paired" else "waiting") := by
  by_cases h : 2 ≤ (addClient (clientsOf st sid) cid).length <;>
    simp [statusOf, update_pairing, lookupA_setA_self, clientsOf, h]

theorem statusOf_update_ne (sid sid' cid : String) (st : ServerState)
    (h : sid' ≠ sid) :
    statusOf (update_pairing sid cid st) sid' = statusOf st sid' := by
  simp [statusOf, update_pairing, lookupA_setA_ne _ _ _ _ h]

theorem pairedInv_init : PairedInv initState := by
  intro sid
  simp [initState, statusOf, clientsOf, lookupA]

theorem pairedInv_update (sid cid : String) (st : ServerState)
    (h : PairedInv st) : PairedInv (update_pairing sid cid st) := by
  intro sid'
  by_cases he : sid' = sid
  · subst he
    rw [clientsOf_update_self, statusOf_update_self]
    by_cases h2 : 2 ≤ (addClient (clientsOf st sid') cid).length <;> simp [h2]
  · rw [clientsOf_update_ne _ _ _ _ he, statusOf_update_ne _ _ _ _ he]
    exact h sid'

theorem clientsOf_apduState (sid cmd cid sid' : String) (st : ServerState) :
    clientsOf (apduState sid cmd cid st) sid' =
      clientsOf (update_pairing sid cid st) sid' := rfl

theorem statusOf_apduState (sid cmd cid sid' : String) (st : ServerState) :
    statusOf (apduState sid cmd cid st) sid' =
      statusOf (update_pairing sid cid st) sid' := rfl

theorem stepOp_apdu_cases (apiKey : String) (a : Option String) (sid cmd cid : String)
    (st : ServerState) :
    stepOp apiKey (.apdu a sid cmd cid) st = st ∨
    stepOp apiKey (.apdu a sid cmd cid) st =
      apduState (trimChars sid) (stripSpacesUpper cmd) cid st := by
  cases hca : check_auth apiKey a with
  | some code => left; simp [stepOp, handle_apdu, hca]
  | none =>
    by_cases he : trimChars sid = ""
    · left; simp [stepOp, handle_apdu, hca, he]
    · right; simp [stepOp, handle_apdu, hca, he, apduState]

theorem stepOp_tagEvent_cases (apiKey : String) (a : Option String) (sid cid : String)
    (st : ServerState) :
    stepOp apiKey (.tagEvent a sid cid) st = st ∨
    stepOp apiKey (.tagEvent a sid cid) st = update_pairing sid cid st := by
  cases hca : check_auth apiKey a with
  | some code => left; simp [stepOp, tag_event, hca]
  | none => right; simp [stepOp, tag_event, hca]

theorem stepOp_statusQ (apiKey : String) (a : Option String) (sid : String)
    (st : ServerState) : stepOp apiKey (.statusQ a sid) st = st := rfl

theorem pairedInv_step (apiKey : String) (op : ServerOp) (st : ServerState)
    (h : PairedInv st) : PairedInv (stepOp apiKey op st) := by
  cases op with
  | apdu a sid cmd cid =>
    rcases stepOp_apdu_cases apiKey a sid cmd cid st with he | he
    · rw [he]; exact h
    · rw [he]
      intro sid'
      rw [clientsOf_apduState, statusOf_apduState]
      exact pairedInv_update _ _ _ h sid'
  | tagEvent a sid cid =>
    rcases stepOp_tagEvent_cases apiKey a sid cid st with he | he
    · rw [he]; exact h
    · rw [he]; exact pairedInv_update _ _ _ h
  | statusQ a sid => rw [stepOp_statusQ]; exact h

theorem pairedInv_foldl (apiKey : String) (ops : List ServerOp) (st : ServerState)
    (h : PairedInv st) :
    PairedInv (ops.foldl (fun s o => stepOp apiKey o s) st) := by
  induction ops generalizing st with
  | nil => simpa
  | cons o ops ih => exact ih _ (pairedInv_step apiKey o st h)

theorem pairedInv_reachable (st : ServerState) (h : Reachable st) : PairedInv st := by
  obtain ⟨apiKey, ops, rfl⟩ := h
  exact pairedInv_foldl apiKey ops initState pairedInv_init

theorem clientsOf_step_mono (apiKey : String) (op : ServerOp) (st : ServerState)
    (sid a : String) (h : a ∈ clientsOf st sid) :
    a ∈ clientsOf (stepOp apiKey op st) sid := by
  cases op with
  | apdu au s cmd cid =>
    rcases stepOp_apdu_cases apiKey au s cmd cid st with he | he
    · rw [he]; exact h
    · rw [he, clientsOf_apduState]
      by_cases hs : sid = trimChars s
      · subst hs
        rw [clientsOf_update_self]
        exact addClient_sub _ _ _ h
      · rw [clientsOf_update_ne _ _ _ _ hs]; exact h
  | tagEvent au s cid =>
    rcases stepOp_tagEvent_cases apiKey au s cid st with he | he
    · rw [he]; exact h
    · rw [he]
      by_cases hs : sid = s
      · subst hs
        rw [clientsOf_update_self]
        exact addClient_sub _ _ _ h
      · rw [clientsOf_update_ne _ _ _ _ hs]; exact h
  | statusQ au s => rw [stepOp_statusQ]; exact h

theorem clientsOf_step_len (apiKey : String) (op : ServerOp) (st : ServerState)
    (sid : String) :
    (clientsOf st sid).length ≤ (clientsOf (stepOp apiKey op st) sid).length := by
  cases op with
  | apdu au s cmd cid =>
    rcases stepOp_apdu_cases apiKey au s cmd cid st with he | he
    · rw [he]
    · rw [he, clientsOf_apduState]
      by_cases hs : sid = trimChars s
      · subst hs
        rw [clientsOf_update_self]
        exact addClient_len _ _
      · rw [clientsOf_update_ne _ _ _ _ hs]
  | tagEvent au s cid =>
    rcases stepOp_tagEvent_cases apiKey au s cid st with he | he
    · rw [he]
    · rw [he]
      by_cases hs : sid = s
      · subst hs
        rw [clientsOf_update_self]
        exact addClient_len _ _
      · rw [clientsOf_update_ne _ _ _ _ hs]
  | statusQ au s => rw [stepOp_statusQ]

theorem paired_step_stable (apiKey : String) (op : ServerOp) (st : ServerState)
    (hInv : PairedInv st) (h : statusOf st sid = "paired") :
    statusOf (stepOp apiKey op st) sid = "paired" := by
  have h2 : 2 ≤ (clientsOf st sid).length := (hInv sid).mp h
  have h3 : 2 ≤ (clientsOf (stepOp apiKey op st) sid).length :=
    le_trans h2 (clientsOf_step_len apiKey op st sid)
  exact (pairedInv_step apiKey op st hInv sid).mpr h3

theorem pushOutbox_roles (st : BridgeState) (sid : String) (r : BRole) (m : String) :
    (pushOutbox st sid r m).roles = st.roles := by
  unfold pushOutbox
  cases lookupA st.outboxes (sid, r) <;> rfl

/-- Claim C2: a synchronous command submitted for a session with no
connected tag peer (no tag Outbox) returns the fixed payload `"6A82"` with
`paired = false` as an ordinary (success-shaped) result, immediately, and
creates no correlation slot — the bridge state is untouched. -/
theorem submit_command_peer_absent (st : BridgeState) (sid cmd : String)
    (timeout : Nat) (arrivals : List (Nat × String))
    (h : hasTagOutbox st sid = false) :
    submit_command st sid cmd timeout arrivals = ⟨"6A82", false, 0, st⟩ := by
  simp [submit_command, h]

/-- Witness for `submit_command_peer_absent`: a session with a reader but no
tag Outbox. -/
theorem submit_command_peer_absent_witness :
    submit_command ⟨[("w2", [(BRole.reader, "r1")])], [], []⟩ "w2" "00A40400" 8
        [(1, "9000")] =
      ⟨"6A82", false, 0, ⟨[("w2", [(BRole.reader, "r1")])], [], []⟩⟩ :=
  submit_command_peer_absent ⟨[("w2", [(BRole.reader, "r1")])], [], []⟩ "w2"
    "00A40400" 8 [(1, "9000")] (by decide)

/-- Claim C3: a synchronous command whose matching response from the tag
peer arrives within the timeout resolves to exactly that response's
payload, unmodified, at the response's arrival time, and reports the
pairing status the registry holds at resolution time (the registry's role
map is not changed by the call). -/
theorem submit_command_answered (st : BridgeState) (sid cmd : String)
    (timeout t : Nat) (p : String) (arrivals : List (Nat × String))
    (h : hasTagOutbox st sid = true)
    (ha : firstResponseWithin timeout arrivals = some (t, p)) :
    (submit_command st sid cmd timeout arrivals).response_payload = p ∧
    (submit_command st sid cmd timeout arrivals).paired = pairedB st sid ∧
    (submit_command st sid cmd timeout arrivals).resolveTime = t := by
  simp [submit_command, h, ha, pairedB, pushOutbox_roles]

/-- Witness for `submit_command_answered`: a fully paired session whose tag
answers `"CAFE9000"` at time 3 against a timeout of 8. -/
theorem submit_command_answered_witness :
    (submit_command
        ⟨[("s", [(BRole.reader, "r"), (BRole.tag, "t")])],
          [(("s", BRole.tag), [])], []⟩
        "s" "00A4" 8 [(3, "CAFE9000")]).response_payload = "CAFE9000" ∧
    (submit_command
        ⟨[("s", [(BRole.reader, "r"), (BRole.tag, "t")])],
          [(("s", BRole.tag), [])], []⟩
        "s" "00A4" 8 [(3, "CAFE9000")]).paired =
      pairedB ⟨[("s", [(BRole.reader, "r"), (BRole.tag, "t")])],
        [(("s", BRole.tag), [])], []⟩ "s" ∧
    (submit_command
        ⟨[("s", [(BRole.reader, "r"), (BRole.tag, "t")])],
          [(("s", BRole.tag), [])], []⟩
        "s" "00A4" 8 [(3, "CAFE9000")]).resolveTime = 3 :=
  submit_command_answered
    ⟨[("s", [(BRole.reader, "r"), (BRole.tag, "t")])],
      [(("s", BRole.tag), [])], []⟩
    "s" "00A4" 8 3 "CAFE9000" [(3, "CAFE9000")] (by decide) (by decide)

/-- Claim C4: a synchronous command whose matching response never arrives
within the timeout resolves to the fixed payload `"6F00"` as an ordinary
result of the call (the bridge returns a `CommandResult`, it raises no
transport-level error), and no earlier than the timeout itself. -/
theorem submit_command_timed_out (st : BridgeState) (sid cmd : String)
    (timeout : Nat) (arrivals : List (Nat × String))
    (h : hasTagOutbox st sid = true)
    (ha : firstResponseWithin timeout arrivals = none) :
    (submit_command st sid cmd timeout arrivals).response_payload = "6F00" ∧
    timeout ≤ (submit_command st sid cmd timeout arrivals).resolveTime := by
  simp [submit_command, h, ha]

/-- Witness for `submit_command_timed_out`: the only response event arrives
at time 9, after the timeout of 8. -/
theorem submit_command_timed_out_witness :
    (submit_command ⟨[("s", [(BRole.tag, "t")])], [(("s", BRole.tag), [])], []⟩
        "s" "00A4" 8 [(9, "9000")]).response_payload = "6F00" ∧
    8 ≤ (submit_command ⟨[("s", [(BRole.tag, "t")])], [(("s", BRole.tag), [])], []⟩
        "s" "00A4" 8 [(9, "9000")]).resolveTime :=
  submit_command_timed_out
    ⟨[("s", [(BRole.tag, "t")])], [(("s", BRole.tag), [])], []⟩
    "s" "00A4" 8 [(9, "9000")] (by decide) (by decide)

/-- Claim C5: every authorized `/apdu` request with a non-empty (stripped)
session id is answered with the constant payload `"9000"` and status
`"ok"`, whatever the command payload's content and whatever the server
state (so regardless of any connected peer); likewise the `/apdu` endpoint
of `src/main.py`, which does not even require a session id. -/
theorem apdu_always_9000 (apiKey : String) (auth : Option String)
    (sid cmd cid : String) (st : ServerState)
    (osid : Option String) (mcmd : String) (mst : List (String × String))
    (hAuth : check_auth apiKey auth = none) (hSid : trimChars sid ≠ "") :
    (handle_apdu apiKey auth sid cmd cid st).toOption.map
        (fun r => (r.1.response_apdu, r.1.status)) = some ("9000", "ok") ∧
    (main_handle_apdu apiKey auth osid mcmd mst).toOption.map
        (fun r => r.1) = some ("9000", "ok") := by
  constructor
  · simp [handle_apdu, hAuth, hSid, Except.toOption]
  · simp [main_handle_apdu, hAuth, Except.toOption]

/-- Witness for `apdu_always_9000`: auth disabled, session `"sess"`, an
arbitrary command, the empty start state. -/
theorem apdu_always_9000_witness :
    (handle_apdu "" none "sess" "00 a4 04" "1.2.3.4:9" initState).toOption.map
        (fun r => (r.1.response_apdu, r.1.status)) = some ("9000", "ok") ∧
    (main_handle_apdu "" none none "00 a4" []).toOption.map
        (fun r => r.1) = some ("9000", "ok") :=
  apdu_always_9000 "" none "sess" "00 a4 04" "1.2.3.4:9" initState none "00 a4" []
    rfl (by decide)

/-- Claim C6 counterexample: the binary endpoint does not relay frames
between peers.  Posting the frame `00 00 00 05 68 65 6C 6C 6F`
(length 5, body "hello") makes the server answer the *sender itself* with
the fixed byte string `"Error: Comanda necunoscuta"` (first byte 0 matches
neither command 1 nor 2), not forward the unmodified frame to a second
peer. -/
theorem nfc_bin_frame_not_relayed_cex :
    handle_nfc_bin [0, 0, 0, 5, 104, 101, 108, 108, 111] =
      .ok (strBytes "Error: Comanda necunoscuta") ∧
    process_nfc_bin [0, 0, 0, 5, 104, 101, 108, 108, 111] ≠
      [0, 0, 0, 5, 104, 101, 108, 108, 111] :=
  ⟨rfl, by decide⟩

/-- Claim C6 (amended): the `/nfc-bin` endpoint performs no relay; every
non-empty posted body is answered to the sender with a fixed string chosen
by its first byte — `0x01` yields `"ACK: Comanda 1 procesata"`, `0x02`
yields `"ACK: Comanda 2 procesata"`, any other first byte (including the
length-prefixed "hello" frame) yields `"Error: Comanda necunoscuta"` — and
an empty body is rejected with HTTP 400. -/
theorem nfc_bin_first_byte_dispatch (rest : List Nat) (b : Nat)
    (h1 : b ≠ 1) (h2 : b ≠ 2) :
    handle_nfc_bin (1 :: rest) = .ok (strBytes "ACK: Comanda 1 procesata") ∧
    handle_nfc_bin (2 :: rest) = .ok (strBytes "ACK: Comanda 2 procesata") ∧
    handle_nfc_bin (b :: rest) = .ok (strBytes "Error: Comanda necunoscuta") ∧
    handle_nfc_bin ([] : List Nat) = .error 400 := by
  refine ⟨?_, ?_, ?_, rfl⟩
  · simp [handle_nfc_bin, process_nfc_bin]
  · simp [handle_nfc_bin, process_nfc_bin]
  · simp [handle_nfc_bin, process_nfc_bin, h1, h2]

/-- Witness for `nfc_bin_first_byte_dispatch` at first byte 0 and a two-byte
tail. -/
theorem nfc_bin_first_byte_dispatch_witness :
    handle_nfc_bin (1 :: [7, 7]) = .ok (strBytes "ACK: Comanda 1 procesata") ∧
    handle_nfc_bin (2 :: [7, 7]) = .ok (strBytes "ACK: Comanda 2 procesata") ∧
    handle_nfc_bin (0 :: [7, 7]) = .ok (strBytes "Error: Comanda necunoscuta") ∧
    handle_nfc_bin ([] : List Nat) = .error 400 :=
  nfc_bin_first_byte_dispatch [7, 7] 0 (by decide) (by decide)

/-- Claim C8 counterexample: a request with an empty *command* payload is
not rejected — `src/server.py` accepts it, registers the client, stores the
empty command and answers `"9000"`; and `src/main.py` does not reject an
empty *session id* either, it silently substitutes `"default"`. -/
theorem empty_command_accepted_cex :
    handle_apdu "" none "sess" "" "cli" initState =
      .ok (⟨"9000", "ok", false⟩,
        ⟨[("sess", ["cli"])], [("sess", "waiting")], [("sess", "")]⟩) ∧
    main_handle_apdu "" none (some "") "AB" [] =
      .ok (("9000", "ok"), [("default", "AB")]) :=
  ⟨rfl, rfl⟩

/-- Claim C8 (amended): in `src/server.py`, a request whose session id is
empty after stripping is rejected synchronously with HTTP 400 before the
pairing logic runs and without modifying any state; an empty command
payload, however, is accepted, and `src/main.py` replaces an empty session
id by `"default"` instead of rejecting. -/
theorem empty_session_rejected_before_state (apiKey : String)
    (auth : Option String) (sid cmd cid : String) (st : ServerState)
    (hAuth : check_auth apiKey auth = none) (hSid : trimChars sid = "") :
    handle_apdu apiKey auth sid cmd cid st = .error 400 ∧
    stepOp apiKey (.apdu auth sid cmd cid) st = st := by
  constructor
  · simp [handle_apdu, hAuth, hSid]
  · simp [stepOp, handle_apdu, hAuth, hSid]

/-- Witness for `empty_session_rejected_before_state`: a single-space
session id with auth disabled. -/
theorem empty_session_rejected_before_state_witness :
    handle_apdu "" none " " "00A4" "cli" initState = .error 400 ∧
    stepOp "" (.apdu none " " "00A4" "cli") initState = initState :=
  empty_session_rejected_before_state "" none " " "00A4" "cli" initState rfl
    (by decide)

/-- Claim C9: when an API key is configured and the request's bearer token
is missing or invalid, the request is rejected and no state mutation takes
place — the session registry, pairing status and last-command table are
exactly the ones before the request; and with an empty configured API key
the check passes for every authorization header. -/
theorem auth_rejected_before_mutation (apiKey : String) (op : ServerOp)
    (st : ServerState) (code : Nat) (a2 : Option String)
    (h : check_auth apiKey op.authOf = some code) :
    stepOp apiKey op st = st ∧ check_auth "" a2 = none := by
  refine ⟨?_, by simp [check_auth]⟩
  cases op with
  | apdu a sid cmd cid =>
    simp only [ServerOp.authOf] at h
    simp [stepOp, handle_apdu, h]
  | tagEvent a sid cid =>
    simp only [ServerOp.authOf] at h
    simp [stepOp, tag_event, h]
  | statusQ a sid => rfl

/-- Witness for `auth_rejected_before_mutation`: configured key
`"secret123"`, a wrong bearer token, and a non-empty state that the
rejected request leaves untouched. -/
theorem auth_rejected_before_mutation_witness :
    stepOp "secret123" (.apdu (some "Bearer wrong") "s" "00" "c")
      (update_pairing "s" "x" initState) = update_pairing "s" "x" initState ∧
    check_auth "" (some "anything") = none :=
  auth_rejected_before_mutation "secret123"
    (.apdu (some "Bearer wrong") "s" "00" "c")
    (update_pairing "s" "x" initState) 403 (some "anything") (by decide)

/-- Claim C1 counterexample: pairing in `src/server.py` ignores roles.  Two
requests to the reader-side `/apdu` endpoint alone — from two distinct
client identities, with no tag-side `/tag/event` registration — already
drive the session to `"paired"`; symmetrically, two `/tag/event`
registrations alone do the same with no reader present.  So `paired` is not
equivalent to "both a reader and a tag role are registered". -/
theorem paired_without_both_roles_cex :
    statusOf (run "" [ServerOp.apdu none "sess" "00A4" "1.2.3.4:1111",
      ServerOp.apdu none "sess" "00A4" "5.6.7.8:2222"]) "sess" = "paired" ∧
    statusOf (run "" [ServerOp.tagEvent none "sess" "1.2.3.4:1111",
      ServerOp.tagEvent none "sess" "5.6.7.8:2222"]) "sess" = "paired" := by
  constructor <;> decide

/-- Claim C1 (amended): in every reachable server state a session's status
is `"paired"` exactly when at least two distinct client identities are
registered for it, from whichever endpoints; and since no operation ever
unregisters a client, no request — including any disconnect-like event the
API offers — ever flips a paired session back to not paired. -/
theorem paired_iff_two_registered_clients (st : ServerState) (h : Reachable st)
    (apiKey : String) (op : ServerOp) (sid : String) :
    (statusOf st sid = "paired" ↔ 2 ≤ (clientsOf st sid).length) ∧
    (statusOf st sid = "paired" → statusOf (stepOp apiKey op st) sid = "paired") := by
  have hInv := pairedInv_reachable st h
  exact ⟨hInv sid, fun hp => paired_step_stable apiKey op st hInv hp⟩

/-- Witness for `paired_iff_two_registered_clients`: a reachable two-client
session stays paired across a further request. -/
theorem paired_iff_two_registered_clients_witness :
    statusOf (stepOp "" (ServerOp.statusQ none "w1")
      (run "" [ServerOp.apdu none "w1" "00" "cA",
        ServerOp.tagEvent none "w1" "cB"])) "w1" = "paired" :=
  (paired_iff_two_registered_clients
    (run "" [ServerOp.apdu none "w1" "00" "cA", ServerOp.tagEvent none "w1" "cB"])
    ⟨"", [ServerOp.apdu none "w1" "00" "cA", ServerOp.tagEvent none "w1" "cB"], rfl⟩
    "" (ServerOp.statusQ none "w1") "w1").2 (by decide)

/-- Unfolding of `update_pairing` into its three components. -/
theorem update_pairing_eq (sid c : String) (st : ServerState) :
    update_pairing sid c st =
      ⟨setA st.sessionClients sid (addClient (clientsOf st sid) c),
        setA st.sessionStatus sid
          (if 2 ≤ (addClient (clientsOf st sid) c).length then "paired"
           else "waiting"),
        st.lastApdu⟩ := rfl

/-- Claim C7 counterexample: registering a second, distinct client identity
for a session does not overwrite the first — `update_pairing` accumulates
identities.  After registering `"1.2.3.4:1111"` and then `"5.6.7.8:2222"`
for the same session, the first identity is still in the client set and
still counts: the session reads `"paired"` precisely because both are
counted, whereas under last-write-wins per role one claimed role would
leave a single connected identity and a non-paired session. -/
theorem reregistration_keeps_old_identity_cex :
    clientsOf (update_pairing "sess" "5.6.7.8:2222"
      (update_pairing "sess" "1.2.3.4:1111" initState)) "sess" =
      ["1.2.3.4:1111", "5.6.7.8:2222"] ∧
    statusOf (update_pairing "sess" "5.6.7.8:2222"
      (update_pairing "sess" "1.2.3.4:1111" initState)) "sess" = "paired" := by
  constructor <;> decide

/-- Claim C7 (amended): registration never overwrites or removes an earlier
client identity — every identity already registered for a session survives
any further registration; registering the same identity twice is a no-op
(set semantics); and every registered identity keeps counting toward
pairing: a second distinct identity, with no role distinction, is exactly
what turns a fresh session `"paired"`. -/
theorem register_accumulates (sid c c' : String) (st : ServerState) :
    (c ∈ clientsOf st sid → c ∈ clientsOf (update_pairing sid c' st) sid) ∧
    update_pairing sid c (update_pairing sid c st) = update_pairing sid c st ∧
    (c ≠ c' →
      statusOf (update_pairing sid c' (update_pairing sid c initState)) sid =
        "paired") := by
  refine ⟨?_, ?_, ?_⟩
  · intro hm
    rw [clientsOf_update_self]
    exact addClient_sub _ _ _ hm
  · have hcc := clientsOf_update_self sid c st
    rw [update_pairing_eq sid c (update_pairing sid c st), hcc,
      addClient_of_mem _ _ (addClient_mem_self _ _), update_pairing_eq sid c st]
    simp [setA_setA]
  · intro hne
    have hcc' : ¬c' = c := fun he => hne he.symm
    rw [statusOf_update_self, clientsOf_update_self]
    have h0 : clientsOf initState sid = [] := rfl
    rw [h0]
    have h1 : addClient [] c = [c] := by simp [addClient]
    rw [h1]
    have h2 : addClient [c] c' = [c, c'] := by simp [addClient, hcc']
    rw [h2]
    simp

/-- Witness for `register_accumulates`: identities `"x"` then `"y"` on one
session. -/
theorem register_accumulates_witness :
    "x" ∈ clientsOf (update_pairing "s" "y" (update_pairing "s" "x" initState)) "s" ∧
    update_pairing "s" "x" (update_pairing "s" "x" (update_pairing "s" "x" initState)) =
      update_pairing "s" "x" (update_pairing "s" "x" initState) ∧
    statusOf (update_pairing "s" "y" (update_pairing "s" "x" initState)) "s" =
      "paired" := by
  have h := register_accumulates "s" "x" "y" (update_pairing "s" "x" initState)
  exact ⟨h.1 (by decide), h.2.1, h.2.2 (by decide)⟩

/-- Claim C10: in every reachable state, the per-session client set and the
pairing status are monotonic under every request — no request removes a
client identity, and a paired session never reads `"waiting"` again; the
`/session/status` read leaves the state exactly as it was; and querying an
unknown session is not an error but answers `"waiting"` with zero
clients. -/
theorem session_state_monotone (st : ServerState) (h : Reachable st)
    (apiKey : String) (op : ServerOp) (sid cid : String) (a : Option String)
    (apiKey2 : String) (a2 : Option String) (sid2 : String)
    (hA2 : check_auth apiKey2 a2 = none)
    (hU1 : lookupA st.sessionClients sid2 = none)
    (hU2 : lookupA st.sessionStatus sid2 = none) :
    (cid ∈ clientsOf st sid → cid ∈ clientsOf (stepOp apiKey op st) sid) ∧
    (statusOf st sid = "paired" → statusOf (stepOp apiKey op st) sid = "paired") ∧
    stepOp apiKey (.statusQ a sid) st = st ∧
    get_session_status apiKey2 a2 sid2 st = .ok (sid2, "waiting", 0) := by
  have hInv := pairedInv_reachable st h
  refine ⟨fun hm => clientsOf_step_mono apiKey op st sid cid hm,
    fun hp => paired_step_stable apiKey op st hInv hp,
    stepOp_statusQ apiKey a sid st, ?_⟩
  simp [get_session_status, hA2, statusOf, clientsOf, hU1, hU2]

/-- Witness for `session_state_monotone`: a reachable paired session `"w"`
keeps its client `"cA"` and its paired status across one more request, the
status read is stateless, and the unknown session `"other"` reads as
waiting with zero clients. -/
theorem session_state_monotone_witness :
    "cA" ∈ clientsOf (stepOp "" (ServerOp.apdu none "w" "00" "cC")
      (run "" [ServerOp.apdu none "w" "00" "cA",
        ServerOp.tagEvent none "w" "cB"])) "w" ∧
    statusOf (stepOp "" (ServerOp.apdu none "w" "00" "cC")
      (run "" [ServerOp.apdu none "w" "00" "cA",
        ServerOp.tagEvent none "w" "cB"])) "w" = "paired" ∧
    stepOp "" (ServerOp.statusQ none "w")
      (run "" [ServerOp.apdu none "w" "00" "cA",
        ServerOp.tagEvent none "w" "cB"]) =
      run "" [ServerOp.apdu none "w" "00" "cA",
        ServerOp.tagEvent none "w" "cB"] ∧
    get_session_status "" none "other"
      (run "" [ServerOp.apdu none "w" "00" "cA",
        ServerOp.tagEvent none "w" "cB"]) = .ok ("other", "waiting", 0) := by
  have h := session_state_monotone
    (run "" [ServerOp.apdu none "w" "00" "cA", ServerOp.tagEvent none "w" "cB"])
    ⟨"", [ServerOp.apdu none "w" "00" "cA", ServerOp.tagEvent none "w" "cB"], rfl⟩
    "" (ServerOp.apdu none "w" "00" "cC") "w" "cA" none "" none "other"
    rfl (by decide) (by decide)
  exact ⟨h.1 (by decide), h.2.1 (by decide), h.2.2.1, h.2.2.2⟩

end NfcServer
